import Mathlib

/-!
# Verification of the Network Test Utility Library

Shallow embedding of the core measurement engine (`NetworkTester`) of the
network-test utility: quality classification, latency statistics, the
deadline-bounded download/upload throughput loops, configuration merging,
provider-name normalization and the quick online check.

Numbers (`performance.now()` timestamps, latencies, speeds) are modelled as
rationals `ℚ`; byte counts as `ℕ`.  Effectful network I/O is modelled by
explicit oracles/traces: a latency probe is a function `Nat → Option ℚ`
(round-trip time of probe `i`, `none` = network error), a download request
trace is a list of `(Option ℕ × ℚ)` pairs (bytes received, `none` = error,
together with the wall-clock time the request consumed), an upload request
trace is a list of `(Bool × ℚ)` pairs (success flag and elapsed time).  The
monotonic clock advances exactly by the elapsed time of each performed
request, so consecutive deadline reads between requests see the same time,
which matches how the source samples `performance.now()`.  The JS
`Math.round` is the Mathlib `round` (round half toward `+∞`, identical
on all inputs).
-/

-- ==================== Types ====================

/-- `SpeedTestResult` record of the source (all numeric fields). -/
structure SpeedTestResult where
  downloadSpeed : ℚ
  uploadSpeed : ℚ
  latency : ℚ
  jitter : ℚ
  timestamp : ℚ
deriving DecidableEq

/-- The five quality tiers of `NetworkQuality.quality`. -/
inductive Quality where
  | excellent
  | good
  | fair
  | poor
  | veryPoor
deriving DecidableEq

/-- `NetworkQuality` record of the source. -/
structure NetworkQuality where
  quality : Quality
  downloadSpeed : ℚ
  uploadSpeed : ℚ
  latency : ℚ
  recommendation : String
deriving DecidableEq

-- ==================== Constants ====================

/-- Per-tier threshold triple of `QUALITY_THRESHOLDS`. -/
structure TierThresholds where
  download : ℚ
  upload : ℚ
  latency : ℚ
deriving DecidableEq

structure QualityThresholds where
  excellent : TierThresholds
  good : TierThresholds
  fair : TierThresholds
  poor : TierThresholds
deriving DecidableEq

/-- The `QUALITY_THRESHOLDS` constant of the source. -/
def QUALITY_THRESHOLDS : QualityThresholds :=
  { excellent := { download := 50, upload := 10, latency := 30 }
    good := { download := 25, upload := 5, latency := 50 }
    fair := { download := 10, upload := 2, latency := 100 }
    poor := { download := 5, upload := 1, latency := 200 } }

-- ==================== Quality classifier ====================

/-- The fixed recommendation string attached to each tier in
`analyzeQuality`. -/
def recommendationFor : Quality → String
  | .excellent => "Perfect for 4K streaming, gaming, and large file transfers."
  | .good => "Suitable for HD streaming, video calls, and online gaming."
  | .fair => "Good for browsing and SD streaming. May experience delays in video calls."
  | .poor => "Basic browsing only. Video streaming and calls will be problematic."
  | .veryPoor => "Very slow connection. Consider switching networks or contacting your ISP."

/-- `NetworkTester.analyzeQuality`: the ordered if/else-if chain of the
source, translated condition for condition. -/
def analyzeQuality (result : SpeedTestResult) : NetworkQuality :=
  if result.downloadSpeed ≥ QUALITY_THRESHOLDS.excellent.download ∧
      result.uploadSpeed ≥ QUALITY_THRESHOLDS.excellent.upload ∧
      result.latency ≤ QUALITY_THRESHOLDS.excellent.latency then
    { quality := .excellent
      downloadSpeed := result.downloadSpeed
      uploadSpeed := result.uploadSpeed
      latency := result.latency
      recommendation := "Perfect for 4K streaming, gaming, and large file transfers." }
  else if result.downloadSpeed ≥ QUALITY_THRESHOLDS.good.download ∧
      result.uploadSpeed ≥ QUALITY_THRESHOLDS.good.upload ∧
      result.latency ≤ QUALITY_THRESHOLDS.good.latency then
    { quality := .good
      downloadSpeed := result.downloadSpeed
      uploadSpeed := result.uploadSpeed
      latency := result.latency
      recommendation := "Suitable for HD streaming, video calls, and online gaming." }
  else if result.downloadSpeed ≥ QUALITY_THRESHOLDS.fair.download ∧
      result.uploadSpeed ≥ QUALITY_THRESHOLDS.fair.upload ∧
      result.latency ≤ QUALITY_THRESHOLDS.fair.latency then
    { quality := .fair
      downloadSpeed := result.downloadSpeed
      uploadSpeed := result.uploadSpeed
      latency := result.latency
      recommendation := "Good for browsing and SD streaming. May experience delays in video calls." }
  else if result.downloadSpeed ≥ QUALITY_THRESHOLDS.poor.download ∧
      result.uploadSpeed ≥ QUALITY_THRESHOLDS.poor.upload then
    { quality := .poor
      downloadSpeed := result.downloadSpeed
      uploadSpeed := result.uploadSpeed
      latency := result.latency
      recommendation := "Basic browsing only. Video streaming and calls will be problematic." }
  else
    { quality := .veryPoor
      downloadSpeed := result.downloadSpeed
      uploadSpeed := result.uploadSpeed
      latency := result.latency
      recommendation := "Very slow connection. Consider switching networks or contacting your ISP." }

-- ==================== Latency sampler ====================

/-- Return type of `NetworkTester.testLatency`. -/
structure LatencyStats where
  avg : ℚ
  jitter : ℚ
  min : ℚ
  max : ℚ
deriving DecidableEq

/-- The sample-collection loop of `testLatency`: probe `i` (for
`i = 0 … count-1`) either yields a round-trip time (pushed onto
`latencies`) or fails (caught, skipped).  `probe` abstracts the
HEAD request against `testUrls[i % testUrls.length]`. -/
def collectLatencies (probe : Nat → Option ℚ) (count : Nat) : List ℚ :=
  (List.range count).filterMap probe

/-- `Math.min(...latencies)` on a non-empty array. -/
def listMin : List ℚ → ℚ
  | [] => 0
  | x :: xs => xs.foldl min x

/-- `Math.max(...latencies)` on a non-empty array. -/
def listMax : List ℚ → ℚ
  | [] => 0
  | x :: xs => xs.foldl max x

/-- `NetworkTester.testLatency`, given the probe oracle: collects up to
`count` samples, throws `All latency tests failed` when none succeeded,
otherwise computes `avg` by `reduce((a,b) => a+b)/length`, `min`/`max` by
`Math.min`/`Math.max`, and jitter by
`reduce((sum,lat) => sum + Math.abs(lat-avg))/length`. -/
def testLatency (probe : Nat → Option ℚ) (count : Nat) :
    Except String LatencyStats :=
  let latencies := collectLatencies probe count
  if latencies.isEmpty then
    Except.error "All latency tests failed"
  else
    let avg := latencies.foldl (fun a b => a + b) 0 / (latencies.length : ℚ)
    let jitter :=
      latencies.foldl (fun sum lat => sum + |lat - avg|) 0 /
        (latencies.length : ℚ)
    Except.ok
      { avg := avg, jitter := jitter
        min := listMin latencies, max := listMax latencies }

/-- Spec-level arithmetic mean of a sample list. -/
def meanOf (l : List ℚ) : ℚ := l.sum / l.length

/-- Spec-level mean absolute deviation from the mean. -/
def madOf (l : List ℚ) : ℚ :=
  (l.map fun x => |x - meanOf l|).sum / l.length

-- ==================== Throughput samplers ====================

/-- `Math.round(x * 100) / 100`: rounding to two decimal places as both
throughput samplers do. -/
def round2 (x : ℚ) : ℚ := (round (x * 100) : ℚ) / 100

/-- The common bytes-to-Mbps conversion of both samplers:
`duration = (finish - start)/1000` seconds, `speedBps = totalBytes/duration`,
`speedMbps = speedBps * 8 / (1024*1024)`, rounded to 2 decimals. -/
def toMbps (totalBytes : ℕ) (startT finishT : ℚ) : ℚ :=
  let duration := (finishT - startT) / 1000
  let speedBps := (totalBytes : ℚ) / duration
  round2 (speedBps * 8 / (1024 * 1024))

/-- The deadline-bounded request loop of `testDownloadSpeed`.  Each trace
entry is one attempted fetch: `(some b, dt)` means the request delivered
`b` body bytes after `dt` ms, `(none, dt)` means it errored after `dt` ms
(caught and skipped — the loop continues with the next endpoint or outer
iteration).  The deadline is re-checked before every request; the clock
advances only while a request is in flight. -/
def downloadRun (endT : ℚ) :
    List (Option ℕ × ℚ) → ℚ → ℕ → ℕ × ℚ
  | [], t, total => (total, t)
  | (res, dt) :: rest, t, total =>
    if t < endT then
      downloadRun endT rest (t + dt) (total + res.getD 0)
    else (total, t)

/-- `NetworkTester.testDownloadSpeed` on a request trace: runs the loop from
`startT` until the deadline `startT + durationSec*1000`, then converts the
accumulated bytes over the actual elapsed wall-clock time to Mbps. -/
def testDownloadSpeed (reqs : List (Option ℕ × ℚ)) (durationSec startT : ℚ) : ℚ :=
  let endT := startT + durationSec * 1000
  let r := downloadRun endT reqs startT 0
  toMbps r.1 startT r.2

/-- The deadline-bounded POST loop of `testUploadSpeed`.  Each trace entry is
one attempted POST of the fixed payload: `(true, dt)` succeeded after `dt` ms
(`totalBytes += data.length`), `(false, dt)` errored after `dt` ms — the
`catch` block executes `break`, terminating the loop immediately. -/
def uploadRun (endT : ℚ) (payload : ℕ) :
    List (Bool × ℚ) → ℚ → ℕ → ℕ × ℚ
  | [], t, total => (total, t)
  | (ok, dt) :: rest, t, total =>
    if t < endT then
      if ok then uploadRun endT payload rest (t + dt) (total + payload)
      else (total, t + dt)
    else (total, t)

/-- `NetworkTester.testUploadSpeed` on a request trace, with payload size
`testFileSize`. -/
def testUploadSpeed (reqs : List (Bool × ℚ)) (durationSec startT : ℚ)
    (testFileSize : ℕ) : ℚ :=
  let endT := startT + durationSec * 1000
  let r := uploadRun endT testFileSize reqs startT 0
  toMbps r.1 startT r.2

-- ==================== Configuration ====================

/-- `SpeedTestOptions`: the four optional recognized keys, plus the
unrecognized keys a caller may also pass in the options object literal
(structural typing in TypeScript lets extra keys through; the spread copies
them but nothing ever reads them). -/
structure SpeedTestOptions where
  downloadTestDuration : Option ℚ := none
  uploadTestDuration : Option ℚ := none
  latencyTestCount : Option ℕ := none
  testFileSize : Option ℕ := none
  unrecognizedKeys : List String := []
deriving DecidableEq

/-- `Required<SpeedTestOptions>`: the resolved configuration. -/
structure ResolvedOptions where
  downloadTestDuration : ℚ
  uploadTestDuration : ℚ
  latencyTestCount : ℕ
  testFileSize : ℕ
deriving DecidableEq

/-- The `DEFAULT_OPTIONS` constant. -/
def DEFAULT_OPTIONS : ResolvedOptions :=
  { downloadTestDuration := 5
    uploadTestDuration := 5
    latencyTestCount := 5
    testFileSize := 1024 * 100 }

/-- The constructor merge of `options` spread over `DEFAULT_OPTIONS`: a present
key overrides the default for that field only; unrecognized keys are copied
into the object but never consulted, so they do not appear in the resolved
configuration read by the tester behaviour. -/
def mergeOptions (options : SpeedTestOptions) : ResolvedOptions :=
  { downloadTestDuration :=
      options.downloadTestDuration.getD DEFAULT_OPTIONS.downloadTestDuration
    uploadTestDuration :=
      options.uploadTestDuration.getD DEFAULT_OPTIONS.uploadTestDuration
    latencyTestCount :=
      options.latencyTestCount.getD DEFAULT_OPTIONS.latencyTestCount
    testFileSize := options.testFileSize.getD DEFAULT_OPTIONS.testFileSize }

-- ==================== Provider-name normalization ====================

/-- `String.prototype.includes`: `sub` occurs contiguously in `s`. -/
def strContains (s sub : String) : Bool :=
  (List.range (s.data.length + 1)).any fun i =>
    sub.data.isPrefixOf (s.data.drop i)

/-- `String.prototype.toLowerCase` (ASCII, as all compared names are). -/
def strLower (s : String) : String := ⟨s.data.map Char.toLower⟩

/-- `String.prototype.trim`: strip whitespace from both ends. -/
def strTrim (s : String) : String :=
  ⟨((s.data.dropWhile Char.isWhitespace).reverse.dropWhile
      Char.isWhitespace).reverse⟩

/-- The `orgString.replace` call on the anchored case-insensitive regex
`AS\d+\s+`: remove one leading
case-insensitive `AS`, followed by one or more digits, followed by one or
more whitespace characters; leave the string unchanged when that pattern is
not present at the start. -/
def stripAsnTag (s : String) : String :=
  match s.data with
  | a :: b :: rest =>
    if (a = 'A' ∨ a = 'a') ∧ (b = 'S' ∨ b = 's') then
      let digits := rest.takeWhile Char.isDigit
      let afterDigits := rest.dropWhile Char.isDigit
      let ws := afterDigits.takeWhile Char.isWhitespace
      if digits ≠ [] ∧ ws ≠ [] then
        ⟨afterDigits.dropWhile Char.isWhitespace⟩
      else s
    else s
  | _ => s

/-- `NetworkTester.normalizeProviderName`: the literal ordered chain of
`includes` checks of the source; `none`/`""` are the falsy inputs for which
the source returns `null`. -/
def normalizeProviderName (orgString : Option String) : Option String :=
  match orgString with
  | none => none
  | some s =>
    if s = "" then none
    else
      let lower := strLower s
      if strContains lower "mtn" then some "MTN"
      else if strContains lower "airtel" then some "Airtel"
      else if strContains lower "glo" || strContains lower "globacom" then some "Glo"
      else if strContains lower "9mobile" || strContains lower "etisalat" then some "9mobile"
      else if strContains lower "vodafone" then some "Vodafone"
      else if strContains lower "orange" then some "Orange"
      else if strContains lower "verizon" then some "Verizon"
      else if strContains lower "at&t" || strContains lower "att" then some "AT&T"
      else if strContains lower "t-mobile" then some "T-Mobile"
      else if strContains lower "telkom" then some "Telkom"
      else some (strTrim (stripAsnTag s))

/-- The ordered rule list of the spec: known carrier substrings, in priority
order, each with its canonical display name. -/
def carrierRules : List (List String × String) :=
  [(["mtn"], "MTN"),
   (["airtel"], "Airtel"),
   (["glo", "globacom"], "Glo"),
   (["9mobile", "etisalat"], "9mobile"),
   (["vodafone"], "Vodafone"),
   (["orange"], "Orange"),
   (["verizon"], "Verizon"),
   (["at&t", "att"], "AT&T"),
   (["t-mobile"], "T-Mobile"),
   (["telkom"], "Telkom")]

/-- First rule (in list order) one of whose substrings occurs in `lower`. -/
def matchRules (lower : String) : List (List String × String) → Option String
  | [] => none
  | (subs, name) :: rest =>
    if subs.any (fun sub => strContains lower sub) then some name
    else matchRules lower rest

/-- Spec-level restatement of normalization ("lower-cases the raw string and
checks, in a fixed priority order, for known carrier substrings; first
substring match wins; if none matches, returns the original string with any
leading `AS<digits> ` tag stripped case-insensitively and surrounding whitespace
trimmed; an absent/empty input yields an absent output"). -/
def normalizeSpec (orgString : Option String) : Option String :=
  match orgString with
  | none => none
  | some s =>
    if s = "" then none
    else
      some ((matchRules (strLower s) carrierRules).getD
        (strTrim (stripAsnTag s)))

-- ==================== Quick check ====================

/-- `NetworkTester.quickCheck` on the outcome of its single probe:
`some lat` means the HEAD request succeeded with round-trip `lat`,
`none` that it threw. -/
def quickCheck (probe : Option ℚ) : Bool × ℚ :=
  match probe with
  | some lat => (true, lat)
  | none => (false, -1)

-- ==================== Concrete fixtures ====================

/-- Probe oracle of the end-to-end latency scenario: the transport stub
returns the fixed synthetic latencies `[100, 120, 110, 90, 130]` ms. -/
def probeFive : Nat → Option ℚ :=
  fun i => some ([(100 : ℚ), 120, 110, 90, 130].getD i 0)

/-- Probe oracle where probes 0, 2 and 4 fail and probes 1 and 3 succeed
(2 successes out of 5). -/
def probe2of5 : Nat → Option ℚ :=
  fun i => [none, some (100 : ℚ), none, some 120, none].getD i none

/-- Probe oracle where every probe fails. -/
def probeFail : Nat → Option ℚ := fun _ => none

-- ==================== Helper lemmas ====================

lemma foldl_add_eq_add_sum (l : List ℚ) (a : ℚ) :
    l.foldl (fun x y => x + y) a = a + l.sum := by
  induction l generalizing a with
  | nil => simp
  | cons x xs ih => simp [ih, add_assoc]

lemma foldl_add_map_eq_add_sum (f : ℚ → ℚ) (l : List ℚ) (a : ℚ) :
    l.foldl (fun s x => s + f x) a = a + (l.map f).sum := by
  induction l generalizing a with
  | nil => simp
  | cons x xs ih => simp [ih, add_assoc]

lemma foldl_min_le (xs : List ℚ) (a : ℚ) :
    xs.foldl min a ≤ a ∧ ∀ x ∈ xs, xs.foldl min a ≤ x := by
  induction xs generalizing a with
  | nil => simp
  | cons y ys ih =>
    have hred : (y :: ys).foldl min a = ys.foldl min (min a y) := rfl
    rw [hred]
    refine ⟨le_trans (ih (min a y)).1 (min_le_left a y), ?_⟩
    intro x hx
    rcases List.mem_cons.mp hx with h | h
    · rw [h]
      exact le_trans (ih (min a y)).1 (min_le_right a y)
    · exact (ih (min a y)).2 x h

lemma le_foldl_max (xs : List ℚ) (a : ℚ) :
    a ≤ xs.foldl max a ∧ ∀ x ∈ xs, x ≤ xs.foldl max a := by
  induction xs generalizing a with
  | nil => simp
  | cons y ys ih =>
    have hred : (y :: ys).foldl max a = ys.foldl max (max a y) := rfl
    rw [hred]
    refine ⟨le_trans (le_max_left a y) (ih (max a y)).1, ?_⟩
    intro x hx
    rcases List.mem_cons.mp hx with h | h
    · rw [h]
      exact le_trans (le_max_right a y) (ih (max a y)).1
    · exact (ih (max a y)).2 x h

lemma listMin_le_mem {l : List ℚ} {x : ℚ} (hx : x ∈ l) : listMin l ≤ x := by
  cases l with
  | nil => cases hx
  | cons y ys =>
    rcases List.mem_cons.mp hx with h | h
    · exact h ▸ (foldl_min_le ys y).1
    · exact (foldl_min_le ys y).2 x h

lemma mem_le_listMax {l : List ℚ} {x : ℚ} (hx : x ∈ l) : x ≤ listMax l := by
  cases l with
  | nil => cases hx
  | cons y ys =>
    rcases List.mem_cons.mp hx with h | h
    · exact h ▸ (le_foldl_max ys y).1
    · exact (le_foldl_max ys y).2 x h

/-- On a non-empty sample list, `testLatency` succeeds and its fields are the
arithmetic mean, the mean absolute deviation from the mean, and the extrema
of the collected samples. -/
lemma testLatency_ok (probe : Nat → Option ℚ) (count : Nat)
    (h : collectLatencies probe count ≠ []) :
    testLatency probe count =
      Except.ok
        { avg := meanOf (collectLatencies probe count)
          jitter := madOf (collectLatencies probe count)
          min := listMin (collectLatencies probe count)
          max := listMax (collectLatencies probe count) } := by
  unfold testLatency
  rw [if_neg (by simpa [List.isEmpty_iff] using h)]
  simp only [foldl_add_eq_add_sum, foldl_add_map_eq_add_sum, zero_add,
    meanOf, madOf]

lemma listMin_le_meanOf {l : List ℚ} (h : l ≠ []) : listMin l ≤ meanOf l := by
  have hlen : 0 < (l.length : ℚ) := by
    exact_mod_cast List.length_pos.mpr h
  rw [meanOf, le_div_iff₀ hlen]
  have := List.card_nsmul_le_sum l (listMin l) fun x hx => listMin_le_mem hx
  rw [nsmul_eq_mul] at this
  linarith [this]

lemma meanOf_le_listMax {l : List ℚ} (h : l ≠ []) : meanOf l ≤ listMax l := by
  have hlen : 0 < (l.length : ℚ) := by
    exact_mod_cast List.length_pos.mpr h
  rw [meanOf, div_le_iff₀ hlen]
  have := List.sum_le_card_nsmul l (listMax l) fun x hx => mem_le_listMax hx
  rw [nsmul_eq_mul] at this
  linarith [this]

lemma madOf_nonneg (l : List ℚ) : 0 ≤ madOf l := by
  rw [madOf]
  apply div_nonneg
  · exact List.sum_nonneg fun x hx => by
      obtain ⟨y, _, rfl⟩ := List.mem_map.mp hx
      exact abs_nonneg _
  · exact_mod_cast Nat.zero_le _

-- ==================== Claim theorems ====================

/-- **C1.** `analyzeQuality` is total and deterministic: written as a Lean
function it assigns every triple exactly one tier; the tier is `excellent`,
`good`, `fair`, `poor`, `very-poor` exactly when the corresponding condition
is the first (in that fixed order) to hold — excellent: download ≥ 50 ∧
upload ≥ 10 ∧ latency ≤ 30; good: 25/5/50; fair: 10/2/100; poor: download ≥ 5
∧ upload ≥ 1 with latency unchecked; very-poor otherwise — and the
recommendation is the fixed string attached to the assigned tier. -/
theorem analyzeQuality_ordered_tiers (r : SpeedTestResult) :
    ((analyzeQuality r).quality = .excellent ↔
      (r.downloadSpeed ≥ 50 ∧ r.uploadSpeed ≥ 10 ∧ r.latency ≤ 30)) ∧
    ((analyzeQuality r).quality = .good ↔
      (¬(r.downloadSpeed ≥ 50 ∧ r.uploadSpeed ≥ 10 ∧ r.latency ≤ 30) ∧
        (r.downloadSpeed ≥ 25 ∧ r.uploadSpeed ≥ 5 ∧ r.latency ≤ 50))) ∧
    ((analyzeQuality r).quality = .fair ↔
      (¬(r.downloadSpeed ≥ 50 ∧ r.uploadSpeed ≥ 10 ∧ r.latency ≤ 30) ∧
        ¬(r.downloadSpeed ≥ 25 ∧ r.uploadSpeed ≥ 5 ∧ r.latency ≤ 50) ∧
        (r.downloadSpeed ≥ 10 ∧ r.uploadSpeed ≥ 2 ∧ r.latency ≤ 100))) ∧
    ((analyzeQuality r).quality = .poor ↔
      (¬(r.downloadSpeed ≥ 50 ∧ r.uploadSpeed ≥ 10 ∧ r.latency ≤ 30) ∧
        ¬(r.downloadSpeed ≥ 25 ∧ r.uploadSpeed ≥ 5 ∧ r.latency ≤ 50) ∧
        ¬(r.downloadSpeed ≥ 10 ∧ r.uploadSpeed ≥ 2 ∧ r.latency ≤ 100) ∧
        (r.downloadSpeed ≥ 5 ∧ r.uploadSpeed ≥ 1))) ∧
    ((analyzeQuality r).quality = .veryPoor ↔
      (¬(r.downloadSpeed ≥ 50 ∧ r.uploadSpeed ≥ 10 ∧ r.latency ≤ 30) ∧
        ¬(r.downloadSpeed ≥ 25 ∧ r.uploadSpeed ≥ 5 ∧ r.latency ≤ 50) ∧
        ¬(r.downloadSpeed ≥ 10 ∧ r.uploadSpeed ≥ 2 ∧ r.latency ≤ 100) ∧
        ¬(r.downloadSpeed ≥ 5 ∧ r.uploadSpeed ≥ 1))) ∧
    (analyzeQuality r).recommendation =
      recommendationFor (analyzeQuality r).quality := by
  unfold analyzeQuality
  simp only [QUALITY_THRESHOLDS]
  split_ifs with h1 h2 h3 h4 <;> simp_all [recommendationFor]

/-- **C10.** `analyzeQuality` copies the input fields `downloadSpeed`,
`uploadSpeed` and `latency` into the output unchanged, and its entire output
depends only on those three fields: two inputs agreeing on them (but with
arbitrary `jitter`/`timestamp`) yield identical outputs. -/
theorem analyzeQuality_frame (r : SpeedTestResult) :
    (analyzeQuality r).downloadSpeed = r.downloadSpeed ∧
    (analyzeQuality r).uploadSpeed = r.uploadSpeed ∧
    (analyzeQuality r).latency = r.latency ∧
    ∀ r2 : SpeedTestResult,
      r.downloadSpeed = r2.downloadSpeed →
      r.uploadSpeed = r2.uploadSpeed →
      r.latency = r2.latency →
      analyzeQuality r = analyzeQuality r2 := by
  refine ⟨?_, ?_, ?_, ?_⟩
  · unfold analyzeQuality; split_ifs <;> rfl
  · unfold analyzeQuality; split_ifs <;> rfl
  · unfold analyzeQuality; split_ifs <;> rfl
  · intro r2 h1 h2 h3
    obtain ⟨d, u, l, j, t⟩ := r
    obtain ⟨d2, u2, l2, j2, t2⟩ := r2
    simp only at h1 h2 h3
    subst h1; subst h2; subst h3
    rfl

/-- Concrete instantiation of `analyzeQuality_frame`: jitter and timestamp
do not influence the assessment. -/
theorem analyzeQuality_frame_witness :
    analyzeQuality ⟨60, 12, 20, 3, 1000⟩ = analyzeQuality ⟨60, 12, 20, 99, 0⟩ :=
  (analyzeQuality_frame ⟨60, 12, 20, 3, 1000⟩).2.2.2 ⟨60, 12, 20, 99, 0⟩ rfl rfl rfl

/-- **C9.** `quickCheck` never throws: on a successful probe it reports
`isOnline = true` with the measured latency; on any failure it returns
`isOnline = false` with the `-1` sentinel (being a total function, it
returns in every case). -/
theorem quickCheck_total (lat : ℚ) :
    quickCheck (some lat) = (true, lat) ∧ quickCheck none = (false, -1) :=
  ⟨rfl, rfl⟩

/-- **C2.** On any run whose collected sample list is non-empty,
`testLatency` returns the arithmetic mean as `avg`, the mean absolute
deviation from the mean as `jitter`, and the extrema as `min`/`max`; on the
fixed synthetic samples `[100, 120, 110, 90, 130]` it returns
`avg = 110`, `jitter = 12`, `min = 90`, `max = 130`. -/
theorem testLatency_statistics :
    (∀ (probe : Nat → Option ℚ) (count : Nat),
        collectLatencies probe count ≠ [] →
        testLatency probe count =
          Except.ok
            { avg := meanOf (collectLatencies probe count)
              jitter := madOf (collectLatencies probe count)
              min := listMin (collectLatencies probe count)
              max := listMax (collectLatencies probe count) }) ∧
    testLatency probeFive 5 =
      Except.ok { avg := 110, jitter := 12, min := 90, max := 130 } := by
  refine ⟨testLatency_ok, ?_⟩
  have h : collectLatencies probeFive 5 = [100, 120, 110, 90, 130] := by decide
  rw [testLatency_ok probeFive 5 (by simp [h]), h]
  norm_num [meanOf, madOf, listMin, listMax, List.foldl]

/-- Instantiation of the universally quantified half of
`testLatency_statistics` on the synthetic five-sample run. -/
theorem testLatency_statistics_witness :
    testLatency probeFive 5 =
      Except.ok
        { avg := meanOf (collectLatencies probeFive 5)
          jitter := madOf (collectLatencies probeFive 5)
          min := listMin (collectLatencies probeFive 5)
          max := listMax (collectLatencies probeFive 5) } :=
  testLatency_statistics.1 probeFive 5 (by decide)

/-- **C3.** `testLatency` throws `All latency tests failed` exactly when
zero of the `count` probes produced a sample; whenever at least one sample
was collected it instead returns statistics computed over the successful
subset only. -/
theorem testLatency_error_iff (probe : Nat → Option ℚ) (count : Nat) :
    (testLatency probe count = Except.error "All latency tests failed" ↔
      collectLatencies probe count = []) ∧
    (collectLatencies probe count ≠ [] →
      testLatency probe count =
        Except.ok
          { avg := meanOf (collectLatencies probe count)
            jitter := madOf (collectLatencies probe count)
            min := listMin (collectLatencies probe count)
            max := listMax (collectLatencies probe count) }) := by
  refine ⟨⟨fun h => ?_, fun h => ?_⟩, testLatency_ok probe count⟩
  · by_contra hne
    rw [testLatency_ok probe count hne] at h
    cases h
  · unfold testLatency
    rw [if_pos (by simp [h])]

/-- 2 of 5 probes succeed (`[100, 120]`): `testLatency` does not throw and
returns the statistics of the two successes; with 0 of 5 succeeding it
throws. -/
theorem testLatency_error_iff_witness :
    testLatency probe2of5 5 =
      Except.ok { avg := 110, jitter := 10, min := 100, max := 120 } ∧
    testLatency probeFail 5 = Except.error "All latency tests failed" := by
  constructor
  · have h : collectLatencies probe2of5 5 = [100, 120] := by decide
    rw [(testLatency_error_iff probe2of5 5).2 (by simp [h]), h]
    norm_num [meanOf, madOf, listMin, listMax, List.foldl]
  · exact (testLatency_error_iff probeFail 5).1.mpr (by decide)

/-- **C8.** Whatever probe outcomes occur, a successfully returned
`LatencyStats` satisfies `min ≤ avg ≤ max` and `jitter ≥ 0`. -/
theorem testLatency_stats_invariant (probe : Nat → Option ℚ) (count : Nat)
    (stats : LatencyStats) (h : testLatency probe count = Except.ok stats) :
    stats.min ≤ stats.avg ∧ stats.avg ≤ stats.max ∧ 0 ≤ stats.jitter := by
  have hne : collectLatencies probe count ≠ [] := by
    intro hemp
    rw [testLatency, if_pos (by simp [hemp])] at h
    cases h
  rw [testLatency_ok probe count hne] at h
  have hrec := Except.ok.inj h
  rw [← hrec]
  exact ⟨listMin_le_meanOf hne, meanOf_le_listMax hne, madOf_nonneg _⟩

/-- The invariant instantiated on the synthetic five-sample run. -/
theorem testLatency_stats_invariant_witness :
    (90 : ℚ) ≤ 110 ∧ (110 : ℚ) ≤ 130 ∧ (0 : ℚ) ≤ 12 := by
  have h : testLatency probeFive 5 =
      Except.ok { avg := 110, jitter := 12, min := 90, max := 130 } := by
    have hc : collectLatencies probeFive 5 = [100, 120, 110, 90, 130] := by
      decide
    rw [testLatency_ok probeFive 5 (by simp [hc]), hc]
    norm_num [meanOf, madOf, listMin, listMax, List.foldl]
  simpa using
    testLatency_stats_invariant probeFive 5
      { avg := 110, jitter := 12, min := 90, max := 130 } h



/-- Evaluating the spec priority rule list on its ten entries. -/
lemma matchRules_carrier (lower : String) :
    matchRules lower carrierRules =
      (if strContains lower "mtn" then some "MTN"
      else if strContains lower "airtel" then some "Airtel"
      else if strContains lower "glo" || strContains lower "globacom" then some "Glo"
      else if strContains lower "9mobile" || strContains lower "etisalat" then some "9mobile"
      else if strContains lower "vodafone" then some "Vodafone"
      else if strContains lower "orange" then some "Orange"
      else if strContains lower "verizon" then some "Verizon"
      else if strContains lower "at&t" || strContains lower "att" then some "AT&T"
      else if strContains lower "t-mobile" then some "T-Mobile"
      else if strContains lower "telkom" then some "Telkom"
      else none) := by
  simp only [carrierRules, matchRules, List.any_cons, List.any_nil,
    Bool.or_false]

lemma downloadRun_allFail (endT : ℚ) (reqs : List (Option ℕ × ℚ))
    (t : ℚ) (total : ℕ) (h : ∀ x ∈ reqs, x.1 = none) :
    (downloadRun endT reqs t total).1 = total := by
  induction reqs generalizing t with
  | nil => rfl
  | cons r rest ih =>
    obtain ⟨res, dt⟩ := r
    have hres : res = none := h (res, dt) (List.mem_cons_self _ _)
    subst hres
    rw [downloadRun]
    split_ifs with ht
    · simpa using ih (t + dt) fun x hx => h x (List.mem_cons_of_mem _ hx)
    · rfl

lemma uploadRun_allFail (endT : ℚ) (payload : ℕ) (reqs : List (Bool × ℚ))
    (t : ℚ) (h : ∀ x ∈ reqs, x.1 = false) :
    (uploadRun endT payload reqs t 0).1 = 0 := by
  cases reqs with
  | nil => rfl
  | cons r rest =>
    obtain ⟨ok, dt⟩ := r
    have hok : ok = false := h (ok, dt) (List.mem_cons_self _ _)
    subst hok
    rw [uploadRun]
    by_cases ht : t < endT
    · rw [if_pos ht]; simp
    · rw [if_neg ht]

lemma toMbps_zero (startT finishT : ℚ) : toMbps 0 startT finishT = 0 := by
  simp [toMbps, round2]

/-- **C4.** When every network request fails, both samplers report `0` Mbps
(no exception — they are total functions), and the failure policies are
asymmetric: a failed download request is skipped (the loop proceeds with
the rest of the trace, time advanced past the failed attempt), while the
first failed upload request terminates the loop immediately, ignoring the
remaining trace. -/
theorem samplers_failure_policy :
    (∀ (reqs : List (Option ℕ × ℚ)) (d s : ℚ),
        (∀ x ∈ reqs, x.1 = none) → testDownloadSpeed reqs d s = 0) ∧
    (∀ (reqs : List (Bool × ℚ)) (d s : ℚ) (size : ℕ),
        (∀ x ∈ reqs, x.1 = false) → testUploadSpeed reqs d s size = 0) ∧
    (∀ (endT dt t : ℚ) (rest : List (Option ℕ × ℚ)) (total : ℕ),
        t < endT →
        downloadRun endT ((none, dt) :: rest) t total =
          downloadRun endT rest (t + dt) total) ∧
    (∀ (endT dt t : ℚ) (payload total : ℕ) (rest : List (Bool × ℚ)),
        t < endT →
        uploadRun endT payload ((false, dt) :: rest) t total =
          (total, t + dt)) := by
  refine ⟨?_, ?_, ?_, ?_⟩
  · intro reqs d s h
    simp only [testDownloadSpeed]
    rw [show (downloadRun (s + d * 1000) reqs s 0).1 = 0 from
      downloadRun_allFail _ _ _ _ h]
    exact toMbps_zero _ _
  · intro reqs d s size h
    simp only [testUploadSpeed]
    rw [show (uploadRun (s + d * 1000) size reqs s 0).1 = 0 from
      uploadRun_allFail _ _ _ _ h]
    exact toMbps_zero _ _
  · intro endT dt t rest total ht
    rw [downloadRun, if_pos ht]
    simp
  · intro endT dt t payload total rest ht
    rw [uploadRun, if_pos ht]
    simp

/-- The failure policies at concrete inputs: a three-request all-failing
download trace and a three-request all-failing upload trace both yield
`0` Mbps; a failing first download request is skipped while a failing first
upload request ends the run. -/
theorem samplers_failure_policy_witness :
    testDownloadSpeed [(none, 300), (none, 300), (none, 300)] 5 0 = 0 ∧
    testUploadSpeed [(false, 300), (false, 300), (false, 300)] 5 0 102400 = 0 ∧
    downloadRun 5000 [(none, 300), (some 1000, 300)] 0 0 =
      downloadRun 5000 [(some 1000, 300)] 300 0 ∧
    uploadRun 5000 102400 [(false, 300), (true, 300)] 0 0 = (0, 300) := by
  refine ⟨samplers_failure_policy.1 _ 5 0 (by decide),
    samplers_failure_policy.2.1 _ 5 0 102400 (by decide), ?_, ?_⟩
  · have := samplers_failure_policy.2.2.1 5000 300 0 [(some 1000, 300)] 0
      (by norm_num)
    simpa using this
  · have := samplers_failure_policy.2.2.2 5000 300 0 102400 0 [(true, 300)]
      (by norm_num)
    simpa using this

/-- **C5.** Both samplers convert accumulated bytes to Mbps as
`(totalBytes / elapsedSeconds) * 8 / 1048576` rounded to two decimal
places, where `elapsedSeconds` is the measured wall-clock window; in
particular 12,500,000 bytes over a 2.0-second window yield exactly
47.68 Mbps (both through the bare conversion and through a download run
that delivers those bytes in one two-second request). -/
theorem samplers_mbps_formula :
    (∀ (reqs : List (Option ℕ × ℚ)) (d s : ℚ),
        testDownloadSpeed reqs d s =
          round2 ((((downloadRun (s + d * 1000) reqs s 0).1 : ℚ) /
              (((downloadRun (s + d * 1000) reqs s 0).2 - s) / 1000)) * 8 /
            1048576)) ∧
    (∀ (reqs : List (Bool × ℚ)) (d s : ℚ) (size : ℕ),
        testUploadSpeed reqs d s size =
          round2 ((((uploadRun (s + d * 1000) size reqs s 0).1 : ℚ) /
              (((uploadRun (s + d * 1000) size reqs s 0).2 - s) / 1000)) * 8 /
            1048576)) ∧
    toMbps 12500000 0 2000 = 4768 / 100 ∧
    testDownloadSpeed [(some 12500000, 2000)] 2 0 = 4768 / 100 := by
  refine ⟨?_, ?_, ?_, ?_⟩
  · intro reqs d s
    norm_num [testDownloadSpeed, toMbps]
  · intro reqs d s size
    norm_num [testUploadSpeed, toMbps]
  · norm_num [toMbps, round2, round_eq]
  · norm_num [testDownloadSpeed, downloadRun, toMbps, round2, round_eq]

/-- **C6.** Constructor configuration merge: every recognized option left
unspecified resolves to its documented default (5 s, 5 s, 5 probes,
102400 bytes), every specified option overrides exactly its own field, and
the unrecognized keys carried by the options object have no effect on the
resolved configuration. -/
theorem mergeOptions_field_by_field (o : SpeedTestOptions) :
    (o.downloadTestDuration = none →
      (mergeOptions o).downloadTestDuration = 5) ∧
    (o.uploadTestDuration = none → (mergeOptions o).uploadTestDuration = 5) ∧
    (o.latencyTestCount = none → (mergeOptions o).latencyTestCount = 5) ∧
    (o.testFileSize = none → (mergeOptions o).testFileSize = 102400) ∧
    (∀ v, o.downloadTestDuration = some v →
      (mergeOptions o).downloadTestDuration = v) ∧
    (∀ v, o.uploadTestDuration = some v →
      (mergeOptions o).uploadTestDuration = v) ∧
    (∀ n, o.latencyTestCount = some n →
      (mergeOptions o).latencyTestCount = n) ∧
    (∀ n, o.testFileSize = some n → (mergeOptions o).testFileSize = n) ∧
    (∀ o2 : SpeedTestOptions,
        o.downloadTestDuration = o2.downloadTestDuration →
        o.uploadTestDuration = o2.uploadTestDuration →
        o.latencyTestCount = o2.latencyTestCount →
        o.testFileSize = o2.testFileSize →
        mergeOptions o = mergeOptions o2) := by
  refine ⟨fun h => ?_, fun h => ?_, fun h => ?_, fun h => ?_,
    fun v h => ?_, fun v h => ?_, fun n h => ?_, fun n h => ?_,
    fun o2 h1 h2 h3 h4 => ?_⟩ <;>
    simp [mergeOptions, DEFAULT_OPTIONS, *]

/-- The merge at a concrete options object: `downloadTestDuration = 7` with
an unrecognized `retries` key overrides only its own field, the other three
fields keep their defaults, and dropping the unrecognized key leaves the
resolved configuration unchanged. -/
theorem mergeOptions_field_by_field_witness :
    (mergeOptions ⟨some 7, none, none, none, ["retries"]⟩).downloadTestDuration = 7 ∧
    (mergeOptions ⟨some 7, none, none, none, ["retries"]⟩).uploadTestDuration = 5 ∧
    (mergeOptions ⟨some 7, none, none, none, ["retries"]⟩).latencyTestCount = 5 ∧
    (mergeOptions ⟨some 7, none, none, none, ["retries"]⟩).testFileSize = 102400 ∧
    mergeOptions ⟨some 7, none, none, none, ["retries"]⟩ =
      mergeOptions ⟨some 7, none, none, none, []⟩ :=
  ⟨(mergeOptions_field_by_field _).2.2.2.2.1 7 rfl,
    (mergeOptions_field_by_field _).2.1 rfl,
    (mergeOptions_field_by_field _).2.2.1 rfl,
    (mergeOptions_field_by_field _).2.2.2.1 rfl,
    (mergeOptions_field_by_field _).2.2.2.2.2.2.2.2 _ rfl rfl rfl rfl⟩

/-- **C7.** `normalizeProviderName` agrees everywhere with the description
in the spec: lower-case the input, try the known carrier substrings in the
fixed priority order and return the canonical name of the first match, otherwise
strip one leading case-insensitive `AS<digits> ` tag and trim; absent or
empty input gives an absent output.  In particular
`"AS12345 MTN Nigeria Communications" ↦ "MTN"` (substring match beats
stripping) and `"AS9999 Some Random Telco" ↦ "Some Random Telco"`. -/
theorem normalizeProviderName_matches_spec :
    (∀ s : Option String, normalizeProviderName s = normalizeSpec s) ∧
    normalizeProviderName (some "AS12345 MTN Nigeria Communications") =
      some "MTN" ∧
    normalizeProviderName (some "AS9999 Some Random Telco") =
      some "Some Random Telco" ∧
    normalizeProviderName none = none ∧
    normalizeProviderName (some "") = none := by
  refine ⟨?_, by decide, by decide, rfl, rfl⟩
  intro s
  cases s with
  | none => rfl
  | some s =>
    rw [normalizeSpec, matchRules_carrier]
    simp only [normalizeProviderName,
      apply_ite (fun o => Option.getD o (strTrim (stripAsnTag s))),
      Option.getD_some, Option.getD_none, apply_ite some]
